import Mathlib

/-!
Verification development for the libuv event-loop backend
(src/lib/fcitx-utils/event_libuv.cpp).

The C++ code is shallowly embedded: every definition below mirrors one
function or data structure of the source file, with machine integers
modelled as Nat/Int and the mutable source objects modelled as records
threaded through explicit state passing.  Callbacks supplied by users of
the loop are abstracted either as effect lists (exit sources) or as Lean
functions on the source record (timer sources); each dispatch function
additionally records an observation log (the arguments a callback was
invoked with, and the enable state visible to it) so that the theorems
can speak about what user code observes.
-/

namespace FcitxEvent

/-! ## IOEventFlags and the libuv bit conversions -/

/-- libuv poll event bit UV_READABLE. -/
def UV_READABLE : Nat := 1

/-- libuv poll event bit UV_WRITABLE. -/
def UV_WRITABLE : Nat := 2

/-- libuv poll event bit UV_DISCONNECT. -/
def UV_DISCONNECT : Nat := 4

/-- Model of the fcitx flag set IOEventFlags: a subset of
{In (Readable), Out (Writable), Hup (HangUp), Err (Error)}. -/
structure IOEventFlags where
  fIn : Bool
  fOut : Bool
  fHup : Bool
  fErr : Bool
deriving DecidableEq, Repr

/-- The empty flag set (value of a default constructed IOEventFlags). -/
def emptyFlags : IOEventFlags := ⟨false, false, false, false⟩

/-- Embedding of IOEventFlagsToLibUVFlags (event_libuv.cpp lines 21-33):
`result |= UV_READABLE` when In is set, `|= UV_WRITABLE` when Out is set,
`|= UV_DISCONNECT` when Hup is set. -/
def IOEventFlagsToLibUVFlags (flags : IOEventFlags) : Nat :=
  let result : Nat := 0
  let result := if flags.fIn then result ||| UV_READABLE else result
  let result := if flags.fOut then result ||| UV_WRITABLE else result
  let result := if flags.fHup then result ||| UV_DISCONNECT else result
  result

/-- Embedding of LibUVFlagsToIOEventFlags (event_libuv.cpp lines 35-39):
each of In/Out/Hup is produced when the corresponding libuv bit is set;
Err is never produced by this conversion. -/
def LibUVFlagsToIOEventFlags (flags : Nat) : IOEventFlags :=
  { fIn := decide (flags &&& UV_READABLE ≠ 0)
    fOut := decide (flags &&& UV_WRITABLE ≠ 0)
    fHup := decide (flags &&& UV_DISCONNECT ≠ 0)
    fErr := false }

/-! ## The enable-state machine shared by all sources -/

/-- Embedding of LibUVSourceEnableState (event_libuv.cpp line 44). -/
inductive LibUVSourceEnableState
  | Disabled
  | Oneshot
  | Enabled
deriving DecidableEq, Repr

/-- isEnabled on the shared state machine: state is not Disabled
(event_libuv.cpp lines 129-131). -/
def stateIsEnabled : LibUVSourceEnableState → Bool
  | .Disabled => false
  | .Oneshot => true
  | .Enabled => true

/-! ## Timer arithmetic (LibUVSourceTime::setup, lines 224-231) -/

/-- The backend timeout requested by LibUVSourceTime::setup:
`timeout = time_ > curr ? (time_ - curr) : 0` in microseconds, then
`timeout /= 1000` to the libuv millisecond unit.  Arguments are the
stored deadline and the current value of the clock, both in
microseconds. -/
def timerTimeout (time_ curr : Nat) : Nat :=
  let timeout : Nat := if time_ > curr then time_ - curr else 0
  timeout / 1000

/-! ## The IO source (LibUVSourceIO, lines 157-195)

`handle_` is the native uv_poll handle; in the model it records the
configuration the registration was made with (the fd passed to
uv_poll_init and the bit mask passed to uv_poll_start).  `inits_` and
`closes_` are observation counters: `inits_` counts calls to init
(fresh native registrations), `closes_` counts calls to cleanup that
found a live handle (uv_close requests). -/

/-- The native uv_poll registration record of an IO source. -/
structure IoHandle where
  pollFd : Int
  uvFlags : Nat
deriving DecidableEq, Repr

/-- Model of LibUVSourceIO: fd_, flags_, revents_ and the inherited
LibUVSourceBase state (state_, handle_). -/
structure LibUVSourceIo where
  fd_ : Int
  flags_ : IOEventFlags
  revents_ : IOEventFlags
  state_ : LibUVSourceEnableState
  handle_ : Option IoHandle
  inits_ : Nat
  closes_ : Nat
deriving DecidableEq, Repr

namespace LibUVSourceIo

/-- LibUVSourceBase::cleanup (lines 61-69): if a handle exists, detach
and request its asynchronous close. -/
def cleanup (s : LibUVSourceIo) : LibUVSourceIo :=
  match s.handle_ with
  | none => s
  | some _ => { s with handle_ := none, closes_ := s.closes_ + 1 }

/-- LibUVSource::init together with LibUVSourceIO::setup
(lines 148-152 and 185-189): allocate a handle, uv_poll_init on fd_,
uv_poll_start with the converted flag bits. -/
def init (s : LibUVSourceIo) : LibUVSourceIo :=
  { s with
    handle_ := some ⟨s.fd_, IOEventFlagsToLibUVFlags s.flags_⟩
    inits_ := s.inits_ + 1 }

/-- LibUVSourceBase::resetEvent (lines 73-83): cleanup, then return if
Disabled, then return if the loop weak pointer no longer locks
(loopAlive = false), else init.  `loopAlive` models whether the UVLoop
owned by the EventLoop is still alive. -/
def resetEvent (loopAlive : Bool) (s : LibUVSourceIo) : LibUVSourceIo :=
  let s := s.cleanup
  if s.state_ = .Disabled then s
  else if loopAlive then s.init else s

/-- LibUVSourceBase::setState (lines 86-91): store the new state and
resetEvent, but only when the state actually changes. -/
def setState (loopAlive : Bool) (s : LibUVSourceIo)
    (st : LibUVSourceEnableState) : LibUVSourceIo :=
  if s.state_ = st then s else resetEvent loopAlive { s with state_ := st }

/-- LibUVSource::setEnabled (lines 132-136). -/
def setEnabled (loopAlive : Bool) (s : LibUVSourceIo) (enabled : Bool) :
    LibUVSourceIo :=
  setState loopAlive s (if enabled then .Enabled else .Disabled)

/-- LibUVSource::setOneShot (line 138). -/
def setOneShot (loopAlive : Bool) (s : LibUVSourceIo) : LibUVSourceIo :=
  setState loopAlive s .Oneshot

/-- LibUVSourceIO::setFd (lines 167-172): reconcile only when the fd
actually changes. -/
def setFd (loopAlive : Bool) (s : LibUVSourceIo) (fd : Int) : LibUVSourceIo :=
  if s.fd_ = fd then s else resetEvent loopAlive { s with fd_ := fd }

/-- LibUVSourceIO::setEvents (lines 176-181): reconcile only when the
flags actually change. -/
def setEvents (loopAlive : Bool) (s : LibUVSourceIo) (flags : IOEventFlags) :
    LibUVSourceIo :=
  if s.flags_ = flags then s else resetEvent loopAlive { s with flags_ := flags }

/-- LibUVSource::isEnabled (lines 129-131). -/
def isEnabled (s : LibUVSourceIo) : Bool := stateIsEnabled s.state_

end LibUVSourceIo

/-- EventLoop::addIOEvent together with the LibUVSourceIO constructor
(lines 158-163 and 329-335): members initialised from the arguments,
revents_ default constructed (empty), then setEnabled(true) from the
initial Disabled base state. -/
def addIOEvent (loopAlive : Bool) (fd : Int) (flags : IOEventFlags) :
    LibUVSourceIo :=
  LibUVSourceIo.setEnabled loopAlive
    { fd_ := fd, flags_ := flags, revents_ := emptyFlags,
      state_ := .Disabled, handle_ := none, inits_ := 0, closes_ := 0 }
    true

/-! ## IO dispatch (IOEventCallback, lines 311-327) -/

/-- How a dispatch ends: normal return, or a process-terminating branch.
abortCalled models a bare abort(), fatalLogged models FCITX_FATAL
(fatal log followed by abort).  No variant propagates an exception to
the caller. -/
inductive DispatchOutcome
  | normal
  | abortCalled
  | fatalLogged
deriving DecidableEq, Repr

/-- Observation log of one IO dispatch: the arguments the user callback
was invoked with and the value isEnabled() returns at the moment the
callback starts running. -/
structure IoDispatchLog where
  cbFd : Int
  cbFlags : IOEventFlags
  stateAtCb : LibUVSourceEnableState
  enabledAtCb : Bool
deriving DecidableEq, Repr

/-- Result of one IO dispatch: the source afterwards, the observation
log, and how the dispatch ended. -/
structure IoDispatchResult where
  source : LibUVSourceIo
  log : IoDispatchLog
  outcome : DispatchOutcome
deriving Repr

/-- Embedding of IOEventCallback (lines 311-327).  `status` and `events`
are the libuv arguments; the user callback is abstracted as a function
`cb` on the source record plus a flag `cbThrows` recording whether it
exits by throwing; the catch handler is FCITX_FATAL (fatal-logged
abort).  The C++ body: if oneshot, setEnabled(false); convert events;
if status < 0 add Err; invoke callback_(source, fd(), flags). -/
def IOEventCallback (loopAlive : Bool) (s : LibUVSourceIo) (status : Int)
    (events : Nat) (cb : LibUVSourceIo → LibUVSourceIo) (cbThrows : Bool) :
    IoDispatchResult :=
  let s1 := if s.state_ = .Oneshot then s.setEnabled loopAlive false else s
  let flags := LibUVFlagsToIOEventFlags events
  let flags := if status < 0 then { flags with fErr := true } else flags
  let log : IoDispatchLog :=
    { cbFd := s1.fd_, cbFlags := flags, stateAtCb := s1.state_
      enabledAtCb := s1.isEnabled }
  if cbThrows then
    { source := cb s1, log := log, outcome := .fatalLogged }
  else
    { source := cb s1, log := log, outcome := .normal }

/-! ## The Time source (LibUVSourceTime, lines 197-237)

The current time is modelled by a function `now : Nat → Nat` from clock
id to the current reading of that clock in microseconds (the C++ helper
`now(clockid_t)`).  The native uv_timer registration records the
millisecond timeout passed to uv_timer_start and its repeat argument. -/

/-- The Linux clockid value CLOCK_MONOTONIC. -/
def CLOCK_MONOTONIC : Nat := 1

/-- The native uv_timer registration record of a Time source. -/
structure TimeHandle where
  timeoutMs : Nat
  rep : Nat
deriving DecidableEq, Repr

/-- Model of LibUVSourceTime: time_, clock_, accuracy_ and the inherited
LibUVSourceBase state (state_, handle_); inits_/closes_ are the same
observation counters as for the IO source. -/
structure LibUVSourceTime where
  time_ : Nat
  clock_ : Nat
  accuracy_ : Nat
  state_ : LibUVSourceEnableState
  handle_ : Option TimeHandle
  inits_ : Nat
  closes_ : Nat
deriving DecidableEq, Repr

namespace LibUVSourceTime

/-- LibUVSourceBase::cleanup (lines 61-69) for a Time source. -/
def cleanup (s : LibUVSourceTime) : LibUVSourceTime :=
  match s.handle_ with
  | none => s
  | some _ => { s with handle_ := none, closes_ := s.closes_ + 1 }

/-- LibUVSource::init together with LibUVSourceTime::setup
(lines 148-152 and 224-231): uv_timer_init, compute the millisecond
timeout from the stored deadline and the current clock value, then
uv_timer_start with repeat argument 0. -/
def init (now : Nat → Nat) (s : LibUVSourceTime) : LibUVSourceTime :=
  { s with
    handle_ := some ⟨timerTimeout s.time_ (now s.clock_), 0⟩
    inits_ := s.inits_ + 1 }

/-- LibUVSourceBase::resetEvent (lines 73-83) for a Time source. -/
def resetEvent (loopAlive : Bool) (now : Nat → Nat) (s : LibUVSourceTime) :
    LibUVSourceTime :=
  let s := s.cleanup
  if s.state_ = .Disabled then s
  else if loopAlive then s.init now else s

/-- LibUVSourceBase::setState (lines 86-91) for a Time source. -/
def setState (loopAlive : Bool) (now : Nat → Nat) (s : LibUVSourceTime)
    (st : LibUVSourceEnableState) : LibUVSourceTime :=
  if s.state_ = st then s
  else resetEvent loopAlive now { s with state_ := st }

/-- LibUVSource::setEnabled (lines 132-136) for a Time source. -/
def setEnabled (loopAlive : Bool) (now : Nat → Nat) (s : LibUVSourceTime)
    (enabled : Bool) : LibUVSourceTime :=
  setState loopAlive now s (if enabled then .Enabled else .Disabled)

/-- LibUVSource::setOneShot (line 138) for a Time source. -/
def setOneShot (loopAlive : Bool) (now : Nat → Nat) (s : LibUVSourceTime) :
    LibUVSourceTime :=
  setState loopAlive now s .Oneshot

/-- LibUVSourceTime::setTime (lines 208-211): store and resetEvent
unconditionally (no no-op suppression). -/
def setTime (loopAlive : Bool) (now : Nat → Nat) (s : LibUVSourceTime)
    (time : Nat) : LibUVSourceTime :=
  resetEvent loopAlive now { s with time_ := time }

/-- LibUVSourceTime::setAccuracy (line 215): store only, no
resetEvent. -/
def setAccuracy (s : LibUVSourceTime) (time : Nat) : LibUVSourceTime :=
  { s with accuracy_ := time }

/-- LibUVSourceTime::setClock (lines 217-220): store and resetEvent
unconditionally. -/
def setClock (loopAlive : Bool) (now : Nat → Nat) (s : LibUVSourceTime)
    (clockid : Nat) : LibUVSourceTime :=
  resetEvent loopAlive now { s with clock_ := clockid }

/-- LibUVSource::isEnabled (lines 129-131) for a Time source. -/
def isEnabled (s : LibUVSourceTime) : Bool := stateIsEnabled s.state_

end LibUVSourceTime

/-- EventLoop::addTimeEvent together with the LibUVSourceTime
constructor (lines 199-204 and 356-363): members initialised from the
arguments, then setOneShot() from the initial Disabled base state.  The
user callback is stored, never invoked here. -/
def addTimeEvent (loopAlive : Bool) (now : Nat → Nat) (clock : Nat)
    (usec : Nat) (accuracy : Nat) : LibUVSourceTime :=
  LibUVSourceTime.setOneShot loopAlive now
    { time_ := usec, clock_ := clock, accuracy_ := accuracy,
      state_ := .Disabled, handle_ := none, inits_ := 0, closes_ := 0 }

/-- EventLoop::addDeferEvent (lines 372-378): exactly
addTimeEvent(CLOCK_MONOTONIC, 0, 0, wrapped callback).  The callback is
only wrapped and stored; it is not invoked during registration. -/
def addDeferEvent (loopAlive : Bool) (now : Nat → Nat) : LibUVSourceTime :=
  addTimeEvent loopAlive now CLOCK_MONOTONIC 0 0

/-- The callback adapter built inside addDeferEvent (lines 375-377): it
forwards the source and drops the time argument. -/
def deferWrap {α β : Type} (callback : α → β) : α → Nat → β :=
  fun source _ => callback source

/-! ## Timer dispatch (TimeEventCallback, lines 337-354)

The user callback is abstracted as `cb : LibUVSourceTime → Option
LibUVSourceTime`: it receives the source and may mutate it through its
accessors or destroy it (result none).  The TrackableObject weak
reference taken before the callback (`auto sourceRef = source->watch()`)
is modelled by that Option: the reference is valid after the callback
iff the callback returned some source.  `cbThrows` records whether the
callback exits by throwing; the catch handler is a bare abort(). -/

/-- Observation log of one timer dispatch. -/
structure TimeDispatchLog where
  cbTime : Nat
  stateAtCb : LibUVSourceEnableState
  enabledAtCb : Bool
  rearmed : Bool
deriving DecidableEq, Repr

/-- Result of one timer dispatch: the source afterwards (none when the
callback destroyed it), the observation log, and how the dispatch
ended. -/
structure TimeDispatchResult where
  source : Option LibUVSourceTime
  log : TimeDispatchLog
  outcome : DispatchOutcome
deriving Repr

/-- The source as the user callback sees it: after the oneshot check
`if (source->isOneShot()) source->setEnabled(false)` (lines 343-345). -/
def dispatchPre (loopAlive : Bool) (now : Nat → Nat)
    (s : LibUVSourceTime) : LibUVSourceTime :=
  if s.state_ = .Oneshot then s.setEnabled loopAlive now false else s

/-- Embedding of TimeEventCallback (lines 337-354): take a weak
reference; if oneshot, setEnabled(false); invoke callback_(source,
source->time()); if the weak reference is still valid and the source is
enabled, resetEvent. -/
def TimeEventCallback (loopAlive : Bool) (now : Nat → Nat)
    (cb : LibUVSourceTime → Option LibUVSourceTime) (cbThrows : Bool)
    (s : LibUVSourceTime) : TimeDispatchResult :=
  let s1 := dispatchPre loopAlive now s
  let log0 : TimeDispatchLog :=
    { cbTime := s1.time_, stateAtCb := s1.state_,
      enabledAtCb := s1.isEnabled, rearmed := false }
  let r := cb s1
  if cbThrows then
    { source := r, log := log0, outcome := .abortCalled }
  else
    match r with
    | none => { source := none, log := log0, outcome := .normal }
    | some s2 =>
      if s2.isEnabled then
        { source := some (s2.resetEvent loopAlive now)
          log := { log0 with rearmed := true }, outcome := .normal }
      else
        { source := some s2, log := log0, outcome := .normal }

/-! ## Exit sources and the exit walk (LibUVSourceExit and
EventLoop::exec, lines 239-259, 261-267, 280-304)

Exit sources are never registered with the backend; the loop keeps a
vector of TrackableObjectReference weak references to them
(EventLoopPrivate::exitEvents_).  We model the population of live exit
sources as an association list from an identity token to the source
record, and the exit list as the list of tokens in registration order.
A weak reference to token id resolves iff id is present in the store.
The body of an exit callback is abstracted as a list of primitive
effects on the store (destroying a source, calling setEnabled or
setOneShot on one), followed by an optional throw. -/

/-- One primitive effect an exit callback can perform on the population
of exit sources. -/
inductive ExitEffect
  | destroy (id : Nat)
  | setEnabledFx (id : Nat) (enabled : Bool)
  | setOneShotFx (id : Nat)
deriving DecidableEq, Repr

/-- Model of LibUVSourceExit (lines 239-259): the enable state (initial
value Oneshot, line 257) and the abstracted callback body. -/
structure LibUVSourceExit where
  state_ : LibUVSourceEnableState
  cbEffects : List ExitEffect
  cbThrows : Bool
deriving DecidableEq, Repr

/-- The population of live exit sources, keyed by identity token. -/
abbrev ExitStore := List (Nat × LibUVSourceExit)

/-- Resolve a weak reference: TrackableObjectReference::get, none once
the source has been destroyed. -/
def lookupSrc : ExitStore → Nat → Option LibUVSourceExit
  | [], _ => none
  | (k, v) :: rest, id => if k = id then some v else lookupSrc rest id

/-- LibUVSourceExit::setEnabled / setOneShot on a stored source (lines
250-255): a plain state write, no native handle involved. -/
def setStateIn (store : ExitStore) (id : Nat)
    (st : LibUVSourceEnableState) : ExitStore :=
  store.map fun p => (p.1, if p.1 = id then { p.2 with state_ := st } else p.2)

/-- Destruction of an exit source: its entry leaves the population, so
every weak reference to it stops resolving. -/
def destroyIn (store : ExitStore) (id : Nat) : ExitStore :=
  store.filter fun p => decide (p.1 ≠ id)

/-- Run one callback effect against the population. -/
def applyExitEffect (store : ExitStore) : ExitEffect → ExitStore
  | .destroy id => destroyIn store id
  | .setEnabledFx id b =>
      setStateIn store id (if b then .Enabled else .Disabled)
  | .setOneShotFx id => setStateIn store id .Oneshot

/-- Observation record of one iteration of the exec exit loop:
which token the entry held, the state the weak reference resolved to at
the start of the visit (none = already destroyed), whether the callback
was invoked, the state stored for this source at the moment the
callback started running, and whether the entry was erased from the
list after the visit. -/
structure ExitVisit where
  id : Nat
  resolvedState : Option LibUVSourceEnableState
  invoked : Bool
  stateAtCb : Option LibUVSourceEnableState
  pruned : Bool
deriving DecidableEq, Repr

/-- Result of the exit walk: the population afterwards, the exit list
afterwards (registration order preserved), the visit trace, and whether
a throwing callback made the walk abort the process. -/
structure WalkOut where
  store : ExitStore
  remaining : List Nat
  trace : List ExitVisit
  aborted : Bool
deriving DecidableEq, Repr

/-- The population right before an invoked callback runs: the oneshot
pre-disable `if (event->isOneShot()) event->setEnabled(false)` (exec,
lines 287-289). -/
def walkStore1 (store : ExitStore) (id : Nat) (ev : LibUVSourceExit) :
    ExitStore :=
  if ev.state_ = .Oneshot then setStateIn store id .Disabled else store

/-- The state stored for the visited source at the moment its callback
starts running. -/
def walkStCb (store : ExitStore) (id : Nat) (ev : LibUVSourceExit) :
    Option LibUVSourceEnableState :=
  (lookupSrc (walkStore1 store id ev) id).map (·.state_)

/-- The population after the invoked callback body has run (exec, line
290). -/
def walkStore2 (store : ExitStore) (id : Nat) (ev : LibUVSourceExit) :
    ExitStore :=
  ev.cbEffects.foldl applyExitEffect (walkStore1 store id ev)

/-- Embedding of the exit-list walk in EventLoop::exec (lines 283-302):
for each entry in order, if the weak reference resolves and the source
is enabled, disable first when oneshot, then invoke the callback (a
throw aborts the process); after the visit, erase the entry iff its
weak reference no longer resolves, else keep it. -/
def execExitWalk (store : ExitStore) : List Nat → WalkOut
  | [] => { store := store, remaining := [], trace := [], aborted := false }
  | id :: rest =>
    match lookupSrc store id with
    | none =>
      let v : ExitVisit := ⟨id, none, false, none, true⟩
      let sub := execExitWalk store rest
      { sub with trace := v :: sub.trace }
    | some ev =>
      if ev.state_ = .Disabled then
        let v : ExitVisit := ⟨id, some ev.state_, false, none, false⟩
        let sub := execExitWalk store rest
        { sub with remaining := id :: sub.remaining, trace := v :: sub.trace }
      else if ev.cbThrows then
        { store := walkStore2 store id ev, remaining := [],
          trace := [⟨id, some ev.state_, true, walkStCb store id ev, false⟩],
          aborted := true }
      else
        let pruned := (lookupSrc (walkStore2 store id ev) id).isNone
        let v : ExitVisit := ⟨id, some ev.state_, true, walkStCb store id ev,
          pruned⟩
        let sub := execExitWalk (walkStore2 store id ev) rest
        { store := sub.store
          remaining := if pruned then sub.remaining else id :: sub.remaining
          trace := v :: sub.trace
          aborted := sub.aborted }

/-- No source in the population has a throwing callback. -/
def exitStoreNoThrow (store : ExitStore) : Bool :=
  store.all fun p => !p.2.cbThrows

/-- Per-visit consistency check used by the exit-walk theorem: the
callback is invoked iff the weak reference resolved to a non-Disabled
source; a Oneshot entry is Disabled by the time its callback runs; an
Enabled entry is still Enabled when its callback runs. -/
def visitConsistent (v : ExitVisit) : Bool :=
  match v.resolvedState with
  | none => !v.invoked
  | some .Disabled => !v.invoked
  | some .Oneshot => v.invoked && decide (v.stateAtCb = some .Disabled)
  | some .Enabled => v.invoked && decide (v.stateAtCb = some .Enabled)

/-! ## Mutation sequences for the handle invariant

One constructor per public mutator of the IO and Time sources, so that
arbitrary call sequences can be quantified over as lists. -/

/-- A call to one of the mutators of an IO source. -/
inductive IoMutation
  | mSetEnabled (enabled : Bool)
  | mSetOneShot
  | mSetFd (fd : Int)
  | mSetEvents (flags : IOEventFlags)
deriving DecidableEq, Repr

/-- Apply one mutator call to an IO source. -/
def applyIoMut (loopAlive : Bool) (s : LibUVSourceIo) :
    IoMutation → LibUVSourceIo
  | .mSetEnabled b => s.setEnabled loopAlive b
  | .mSetOneShot => s.setOneShot loopAlive
  | .mSetFd fd => s.setFd loopAlive fd
  | .mSetEvents flags => s.setEvents loopAlive flags

/-- Whether the mutator call takes effect, i.e. passes the no-op
suppression guards of setState / setFd / setEvents and reaches
resetEvent. -/
def ioTriggersRebuild (s : LibUVSourceIo) : IoMutation → Bool
  | .mSetEnabled b =>
      decide (s.state_ ≠ (if b then .Enabled else .Disabled))
  | .mSetOneShot => decide (s.state_ ≠ .Oneshot)
  | .mSetFd fd => decide (s.fd_ ≠ fd)
  | .mSetEvents flags => decide (s.flags_ ≠ flags)

/-- The handle invariant for IO sources: a native handle exists iff the
state is not Disabled, and it reflects the current configuration (the
fd it was initialised with and the converted flag bits it was started
with). -/
def ioHandleInv (s : LibUVSourceIo) : Prop :=
  s.handle_ = if s.state_ = .Disabled then none
    else some ⟨s.fd_, IOEventFlagsToLibUVFlags s.flags_⟩

instance (s : LibUVSourceIo) : Decidable (ioHandleInv s) := by
  unfold ioHandleInv
  exact inferInstance

/-- A call to one of the mutators of a Time source. -/
inductive TimeMutation
  | mSetEnabled (enabled : Bool)
  | mSetOneShot
  | mSetTime (t : Nat)
  | mSetClock (c : Nat)
  | mSetAccuracy (a : Nat)
deriving DecidableEq, Repr

/-- Apply one mutator call to a Time source. -/
def applyTimeMut (loopAlive : Bool) (now : Nat → Nat)
    (s : LibUVSourceTime) : TimeMutation → LibUVSourceTime
  | .mSetEnabled b => s.setEnabled loopAlive now b
  | .mSetOneShot => s.setOneShot loopAlive now
  | .mSetTime t => LibUVSourceTime.setTime loopAlive now s t
  | .mSetClock c => LibUVSourceTime.setClock loopAlive now s c
  | .mSetAccuracy a => s.setAccuracy a

/-- Whether the mutator call reaches resetEvent: setTime and setClock
always do, setAccuracy never does, state changes only when the state
actually changes. -/
def timeTriggersRebuild (s : LibUVSourceTime) : TimeMutation → Bool
  | .mSetEnabled b =>
      decide (s.state_ ≠ (if b then .Enabled else .Disabled))
  | .mSetOneShot => decide (s.state_ ≠ .Oneshot)
  | .mSetTime _ => true
  | .mSetClock _ => true
  | .mSetAccuracy _ => false

/-- The handle invariant for Time sources: a native handle exists iff
the state is not Disabled, and it reflects the current configuration
(the millisecond timeout computed from the current deadline and clock,
armed to fire once). -/
def timeHandleInv (now : Nat → Nat) (s : LibUVSourceTime) : Prop :=
  s.handle_ = if s.state_ = .Disabled then none
    else some ⟨timerTimeout s.time_ (now s.clock_), 0⟩

instance (now : Nat → Nat) (s : LibUVSourceTime) :
    Decidable (timeHandleInv now s) := by
  unfold timeHandleInv
  exact inferInstance

/-- The visits whose entry survived the walk. -/
def visitKept (v : ExitVisit) : Bool := !v.pruned

/-- A visit respects initial liveness: its callback was invoked only if
the token still resolved in the given (pre-walk) population. -/
def invokedOnlyIfInitiallyLive (store : ExitStore) (v : ExitVisit) : Bool :=
  (lookupSrc store v.id).isSome || !v.invoked

/-! ## Sample data used by the concrete witnesses -/

/-- A sample clock query: every clock reads 2000 μs. -/
def sampleClock : Nat → Nat := fun _ => 2000

/-- A sample clock query: every clock reads 1000 μs. -/
def sampleClock1000 : Nat → Nat := fun _ => 1000

/-- A sample timer callback that leaves the source unchanged. -/
def cbTimeKeep : LibUVSourceTime → Option LibUVSourceTime := fun x => some x

/-- A sample timer callback that destroys the source. -/
def cbTimeDestroy : LibUVSourceTime → Option LibUVSourceTime := fun _ => none

/-- A sample timer callback that re-enables the source. -/
def cbTimeReenable : LibUVSourceTime → Option LibUVSourceTime :=
  fun x => some { x with state_ := .Enabled }

/-- A sample IO callback that leaves the source unchanged. -/
def cbIoKeep : LibUVSourceIo → LibUVSourceIo := fun s => s

/-! ## Theorems -/

/-- C5: for every subset of {Readable, Writable, HangUp} (Err excluded),
converting to libuv bits with IOEventFlagsToLibUVFlags and back with
LibUVFlagsToIOEventFlags yields the identical flag set. -/
theorem io_flags_round_trip :
    ∀ r w h : Bool,
      LibUVFlagsToIOEventFlags (IOEventFlagsToLibUVFlags ⟨r, w, h, false⟩) =
        ⟨r, w, h, false⟩ := by
  decide

/-- C8: when a timer source registers its native handle, the requested
backend timeout is max(0, deadline - now) in the microsecond domain,
coarsened to milliseconds by integer division by 1000; a deadline at or
before now, and a deadline less than 1 ms in the future, both yield
timeout 0; the handle is armed with uv_timer_start repeat argument 0,
so it fires exactly once. -/
theorem timer_timeout_spec (t n t2 n2 t3 n3 : Nat) (now : Nat → Nat)
    (s : LibUVSourceTime) (h2 : t2 ≤ n2) (h3 : t3 - n3 < 1000) :
    timerTimeout t n = (max 0 ((t : ℤ) - (n : ℤ))).toNat / 1000
    ∧ timerTimeout t2 n2 = 0
    ∧ timerTimeout t3 n3 = 0
    ∧ (LibUVSourceTime.init now s).handle_
        = some ⟨timerTimeout s.time_ (now s.clock_), 0⟩ := by
  refine ⟨?_, ?_, ?_, rfl⟩
  · show (if t > n then t - n else 0) / 1000 = (max 0 ((t : ℤ) - (n : ℤ))).toNat / 1000
    congr 1
    split <;> omega
  · show (if t2 > n2 then t2 - n2 else 0) / 1000 = 0
    split <;> omega
  · show (if t3 > n3 then t3 - n3 else 0) / 1000 = 0
    split <;> omega

/-- Witness for timer_timeout_spec at concrete inputs:
deadline 5000 μs, clock at 2000 μs for the general equation; deadline 1
at clock 5 (past), deadline 2500 at clock 2000 (less than 1 ms ahead). -/
theorem timer_timeout_spec_witness :
    (1 : Nat) ≤ 5 ∧ (2500 : Nat) - 2000 < 1000
    ∧ (timerTimeout 5000 2000 = (max 0 ((5000 : ℤ) - (2000 : ℤ))).toNat / 1000
       ∧ timerTimeout 1 5 = 0
       ∧ timerTimeout 2500 2000 = 0
       ∧ (LibUVSourceTime.init sampleClock
            ⟨5000, 1, 0, .Oneshot, none, 0, 0⟩).handle_
           = some ⟨timerTimeout 5000 2000, 0⟩) :=
  ⟨by decide, by decide,
    timer_timeout_spec 5000 2000 1 5 2500 2000 sampleClock
      ⟨5000, 1, 0, .Oneshot, none, 0, 0⟩ (by decide) (by decide)⟩

/-- Helper: setEnabled(false) on an IO source leaves fd_, flags_ and
revents_ untouched and lands in the Disabled state. -/
theorem io_setEnabled_false_spec (la : Bool) (s : LibUVSourceIo) :
    (s.setEnabled la false).state_ = .Disabled
    ∧ (s.setEnabled la false).fd_ = s.fd_
    ∧ (s.setEnabled la false).flags_ = s.flags_
    ∧ (s.setEnabled la false).revents_ = s.revents_ := by
  cases hst : s.state_ <;> cases hh : s.handle_ <;>
    simp [LibUVSourceIo.setEnabled, LibUVSourceIo.setState,
      LibUVSourceIo.resetEvent, LibUVSourceIo.cleanup, LibUVSourceIo.init,
      hst, hh]

/-- C2: on every IO dispatch, the callback receives the fd of the
source and the triggered flags, which are exactly the libuv event bits
converted to {In, Out, Hup} with Err added iff the libuv status for
this wait was negative; a OneShot source is in the Disabled state (so
isEnabled() is false) by the time the callback is invoked. -/
theorem io_dispatch_spec (loopAlive : Bool) (s sOne : LibUVSourceIo)
    (status : Int) (events : Nat) (cb : LibUVSourceIo → LibUVSourceIo)
    (cbThrows : Bool) (hOne : sOne.state_ = .Oneshot) :
    (IOEventCallback loopAlive s status events cb cbThrows).log.cbFd = s.fd_
    ∧ (IOEventCallback loopAlive s status events cb cbThrows).log.cbFlags
        = (if status < 0 then
             { LibUVFlagsToIOEventFlags events with fErr := true }
           else LibUVFlagsToIOEventFlags events)
    ∧ ((IOEventCallback loopAlive s status events cb cbThrows).log.cbFlags.fErr
        = true ↔ status < 0)
    ∧ (IOEventCallback loopAlive sOne status events cb cbThrows).log.stateAtCb
        = .Disabled
    ∧ (IOEventCallback loopAlive sOne status events cb cbThrows).log.enabledAtCb
        = false := by
  have hd := io_setEnabled_false_spec loopAlive sOne
  refine ⟨?_, ?_, ?_, ?_, ?_⟩
  · cases cbThrows <;> cases hst : s.state_ <;>
      simp [IOEventCallback, hst, (io_setEnabled_false_spec loopAlive s).2.1]
  · cases cbThrows <;> simp [IOEventCallback]
  · by_cases hlt : status < 0 <;> cases cbThrows <;>
      simp [IOEventCallback, hlt, LibUVFlagsToIOEventFlags]
  · cases cbThrows <;> simp [IOEventCallback, hOne, hd.1]
  · cases cbThrows <;>
      simp [IOEventCallback, hOne, hd.1, LibUVSourceIo.isEnabled,
        stateIsEnabled]

/-- Witness for io_dispatch_spec: a concrete Enabled source dispatched
with status -1 and events UV_READABLE, and a concrete OneShot source. -/
theorem io_dispatch_spec_witness :
    (⟨5, ⟨true, false, false, false⟩, emptyFlags, .Oneshot, some ⟨5, 1⟩, 1, 0⟩
        : LibUVSourceIo).state_ = .Oneshot
    ∧ ((IOEventCallback true
          ⟨3, ⟨true, false, false, false⟩, emptyFlags, .Enabled, some ⟨3, 1⟩, 1, 0⟩
          (-1) 1 id false).log.cbFd
        = (⟨3, ⟨true, false, false, false⟩, emptyFlags, .Enabled, some ⟨3, 1⟩, 1, 0⟩
            : LibUVSourceIo).fd_
      ∧ (IOEventCallback true
          ⟨3, ⟨true, false, false, false⟩, emptyFlags, .Enabled, some ⟨3, 1⟩, 1, 0⟩
          (-1) 1 id false).log.cbFlags
        = (if (-1 : Int) < 0 then
             { LibUVFlagsToIOEventFlags 1 with fErr := true }
           else LibUVFlagsToIOEventFlags 1)
      ∧ ((IOEventCallback true
          ⟨3, ⟨true, false, false, false⟩, emptyFlags, .Enabled, some ⟨3, 1⟩, 1, 0⟩
          (-1) 1 id false).log.cbFlags.fErr = true ↔ (-1 : Int) < 0)
      ∧ (IOEventCallback true
          ⟨5, ⟨true, false, false, false⟩, emptyFlags, .Oneshot, some ⟨5, 1⟩, 1, 0⟩
          (-1) 1 id false).log.stateAtCb = .Disabled
      ∧ (IOEventCallback true
          ⟨5, ⟨true, false, false, false⟩, emptyFlags, .Oneshot, some ⟨5, 1⟩, 1, 0⟩
          (-1) 1 id false).log.enabledAtCb = false) :=
  ⟨by decide,
    io_dispatch_spec true
      ⟨3, ⟨true, false, false, false⟩, emptyFlags, .Enabled, some ⟨3, 1⟩, 1, 0⟩
      ⟨5, ⟨true, false, false, false⟩, emptyFlags, .Oneshot, some ⟨5, 1⟩, 1, 0⟩
      (-1) 1 id false (by decide)⟩

/-- C7 (code-bug evidence): dispatching an IO source whose descriptor
became readable (events = UV_READABLE, status = 0) passes the flag set
{In} to the callback, yet afterwards revents_ still holds the default
empty set: IOEventCallback never stores the triggered flags, so
revents() does not return the bits of the most recent dispatch. -/
theorem revents_not_updated :
    (IOEventCallback true (addIOEvent true 3 ⟨true, false, false, false⟩) 0 1
        id false).log.cbFlags = ⟨true, false, false, false⟩
    ∧ (IOEventCallback true (addIOEvent true 3 ⟨true, false, false, false⟩) 0 1
        id false).source.revents_ = emptyFlags
    ∧ ¬ (IOEventCallback true (addIOEvent true 3 ⟨true, false, false, false⟩)
          0 1 id false).source.revents_
        = (IOEventCallback true (addIOEvent true 3 ⟨true, false, false, false⟩)
            0 1 id false).log.cbFlags := by
  decide

/-- C6 counterexample: with the monotonic clock reading 1000 μs at
registration, the source returned by addDeferEvent stores deadline 0,
not the current monotonic time 1000. -/
theorem defer_deadline_not_now :
    sampleClock1000 CLOCK_MONOTONIC = 1000
    ∧ (addDeferEvent true sampleClock1000).time_ = 0
    ∧ ¬ (addDeferEvent true sampleClock1000).time_
        = sampleClock1000 CLOCK_MONOTONIC := by
  decide

/-- C6 amended: addDeferEvent(cb) is exactly addTimeEvent(monotonic
clock, deadline = 0, accuracy = 0, wrap(cb)), where wrap only adapts
the callback signature by dropping the time argument; the resulting
source is a OneShot Time source whose stored deadline is 0 (at or
before any clock reading, so with a live loop its handle is armed with
timeout 0 ms and fires on the next loop turn); the callback is only
stored during registration, never invoked. -/
theorem defer_is_time_event_amended (loopAlive : Bool) (now : Nat → Nat)
    {α β : Type} (cb : α → β) (a : α) (t : Nat) :
    addDeferEvent loopAlive now = addTimeEvent loopAlive now CLOCK_MONOTONIC 0 0
    ∧ (addDeferEvent loopAlive now).time_ = 0
    ∧ (addDeferEvent loopAlive now).clock_ = CLOCK_MONOTONIC
    ∧ (addDeferEvent loopAlive now).accuracy_ = 0
    ∧ (addDeferEvent loopAlive now).state_ = .Oneshot
    ∧ (addDeferEvent true now).handle_ = some ⟨0, 0⟩
    ∧ deferWrap cb a t = cb a := by
  refine ⟨rfl, ?_, ?_, ?_, ?_, ?_, rfl⟩ <;>
    cases loopAlive <;>
    simp [addDeferEvent, addTimeEvent, LibUVSourceTime.setOneShot,
      LibUVSourceTime.setState, LibUVSourceTime.resetEvent,
      LibUVSourceTime.cleanup, LibUVSourceTime.init, timerTimeout]

/-- Helper: whether or not the oneshot pre-disable ran, the source the
timer callback receives still stores the original deadline, clock and
accuracy. -/
theorem dispatchPre_fields (la : Bool) (now : Nat → Nat)
    (s : LibUVSourceTime) :
    (dispatchPre la now s).time_ = s.time_
    ∧ (dispatchPre la now s).clock_ = s.clock_
    ∧ (dispatchPre la now s).accuracy_ = s.accuracy_ := by
  unfold dispatchPre
  cases hst : s.state_ <;> cases hh : s.handle_ <;>
    simp [LibUVSourceTime.setEnabled, LibUVSourceTime.setState,
      LibUVSourceTime.resetEvent, LibUVSourceTime.cleanup,
      LibUVSourceTime.init, hst, hh]

/-- Helper: a OneShot timer source is Disabled by the time the callback
sees it. -/
theorem dispatchPre_oneshot_state (la : Bool) (now : Nat → Nat)
    (s : LibUVSourceTime) (h : s.state_ = .Oneshot) :
    (dispatchPre la now s).state_ = .Disabled := by
  unfold dispatchPre
  cases hh : s.handle_ <;>
    simp [LibUVSourceTime.setEnabled, LibUVSourceTime.setState,
      LibUVSourceTime.resetEvent, LibUVSourceTime.cleanup,
      LibUVSourceTime.init, h, hh]

/-- Helper: the observation log of a timer dispatch records the
deadline, state and enabled flag of the source as the callback sees
it. -/
theorem time_dispatch_log (la : Bool) (now : Nat → Nat)
    (cb : LibUVSourceTime → Option LibUVSourceTime) (th : Bool)
    (s : LibUVSourceTime) :
    (TimeEventCallback la now cb th s).log.cbTime = (dispatchPre la now s).time_
    ∧ (TimeEventCallback la now cb th s).log.stateAtCb
        = (dispatchPre la now s).state_
    ∧ (TimeEventCallback la now cb th s).log.enabledAtCb
        = (dispatchPre la now s).isEnabled := by
  cases th
  · rcases hc : cb (dispatchPre la now s) with _ | s2
    · simp [TimeEventCallback, hc]
    · by_cases he : s2.isEnabled = true <;> simp [TimeEventCallback, hc, he]
  · simp [TimeEventCallback]

/-- Helper: stateIsEnabled is true exactly away from Disabled. -/
theorem stateIsEnabled_iff (st : LibUVSourceEnableState) :
    stateIsEnabled st = true ↔ st ≠ .Disabled := by
  cases st <;> simp [stateIsEnabled]

/-- C3: on every timer dispatch, the callback is invoked with the
stored deadline; a OneShot source is Disabled (isEnabled() false)
before the callback runs; after the callback returns, the source is
re-reconciled (resetEvent) iff the weak reference taken before the
callback still resolves and the state is not Disabled.  A source
destroyed by its callback is never re-armed; a source the callback left
or put in Disabled is returned untouched; a source the callback left
enabled gets a fresh native registration (with a live loop: a new
handle armed from the current deadline, and an incremented registration
count), so a one-shot timer whose callback re-enables it fires
again. -/
theorem time_dispatch_spec (la : Bool) (now : Nat → Nat)
    (cb cbD cbR cbX : LibUVSourceTime → Option LibUVSourceTime)
    (s sOne sD sR sX sR2 sX2 : LibUVSourceTime)
    (hOne : sOne.state_ = .Oneshot)
    (hdes : cbD (dispatchPre la now sD) = none)
    (hre : cbR (dispatchPre la now sR) = some sR2)
    (hren : sR2.state_ ≠ .Disabled)
    (hdis : cbX (dispatchPre la now sX) = some sX2)
    (hdisS : sX2.state_ = .Disabled) :
    (TimeEventCallback la now cb false s).log.cbTime = s.time_
    ∧ (TimeEventCallback la now cb false sOne).log.stateAtCb = .Disabled
    ∧ (TimeEventCallback la now cb false sOne).log.enabledAtCb = false
    ∧ (TimeEventCallback la now cbD false sD).source = none
    ∧ (TimeEventCallback la now cbD false sD).log.rearmed = false
    ∧ (TimeEventCallback la now cbR false sR).source
        = some (sR2.resetEvent la now)
    ∧ (TimeEventCallback la now cbR false sR).log.rearmed = true
    ∧ (sR2.resetEvent true now).handle_
        = some ⟨timerTimeout sR2.time_ (now sR2.clock_), 0⟩
    ∧ (sR2.resetEvent true now).inits_ = sR2.inits_ + 1
    ∧ (TimeEventCallback la now cbX false sX).source = some sX2
    ∧ (TimeEventCallback la now cbX false sX).log.rearmed = false := by
  have hen2 : sR2.isEnabled = true := by
    simpa [LibUVSourceTime.isEnabled, stateIsEnabled_iff] using hren
  have hdis2 : sX2.isEnabled = false := by
    simp [LibUVSourceTime.isEnabled, hdisS, stateIsEnabled]
  refine ⟨?_, ?_, ?_, ?_, ?_, ?_, ?_, ?_, ?_, ?_, ?_⟩
  · rw [(time_dispatch_log la now cb false s).1,
      (dispatchPre_fields la now s).1]
  · rw [(time_dispatch_log la now cb false sOne).2.1,
      dispatchPre_oneshot_state la now sOne hOne]
  · rw [(time_dispatch_log la now cb false sOne).2.2]
    simp [LibUVSourceTime.isEnabled,
      dispatchPre_oneshot_state la now sOne hOne, stateIsEnabled]
  · simp [TimeEventCallback, hdes]
  · simp [TimeEventCallback, hdes]
  · simp [TimeEventCallback, hre, hen2]
  · simp [TimeEventCallback, hre, hen2]
  · have : sR2.cleanup.state_ ≠ .Disabled := by
      cases hh : sR2.handle_ <;> simp [LibUVSourceTime.cleanup, hh, hren]
    cases hh : sR2.handle_ <;>
      simp [LibUVSourceTime.resetEvent, LibUVSourceTime.cleanup,
        LibUVSourceTime.init, hh, hren]
  · cases hh : sR2.handle_ <;>
      simp [LibUVSourceTime.resetEvent, LibUVSourceTime.cleanup,
        LibUVSourceTime.init, hh, hren]
  · simp [TimeEventCallback, hdis, hdis2]
  · simp [TimeEventCallback, hdis, hdis2]

/-- Witness for time_dispatch_spec: a OneShot timer with deadline 5000
μs on a clock reading 2000 μs, dispatched against a callback that
returns the source unchanged, one that destroys it, one that re-enables
it, and one that leaves it disabled. -/
theorem time_dispatch_spec_witness :
    (⟨5000, 1, 0, .Oneshot, some ⟨3, 0⟩, 1, 0⟩ : LibUVSourceTime).state_
        = .Oneshot
    ∧ cbTimeDestroy
        (dispatchPre true sampleClock ⟨5000, 1, 0, .Oneshot, some ⟨3, 0⟩, 1, 0⟩)
        = none
    ∧ cbTimeReenable
        (dispatchPre true sampleClock ⟨5000, 1, 0, .Oneshot, some ⟨3, 0⟩, 1, 0⟩)
        = some ⟨5000, 1, 0, .Enabled, none, 1, 1⟩
    ∧ (⟨5000, 1, 0, .Enabled, none, 1, 1⟩ : LibUVSourceTime).state_ ≠ .Disabled
    ∧ cbTimeKeep
        (dispatchPre true sampleClock ⟨5000, 1, 0, .Oneshot, some ⟨3, 0⟩, 1, 0⟩)
        = some ⟨5000, 1, 0, .Disabled, none, 1, 1⟩
    ∧ (⟨5000, 1, 0, .Disabled, none, 1, 1⟩ : LibUVSourceTime).state_ = .Disabled
    ∧ ((TimeEventCallback true sampleClock cbTimeKeep false
          ⟨5000, 1, 0, .Enabled, some ⟨3, 0⟩, 1, 0⟩).log.cbTime = 5000
      ∧ (TimeEventCallback true sampleClock cbTimeKeep false
          ⟨5000, 1, 0, .Oneshot, some ⟨3, 0⟩, 1, 0⟩).log.stateAtCb = .Disabled
      ∧ (TimeEventCallback true sampleClock cbTimeKeep false
          ⟨5000, 1, 0, .Oneshot, some ⟨3, 0⟩, 1, 0⟩).log.enabledAtCb = false
      ∧ (TimeEventCallback true sampleClock cbTimeDestroy false
          ⟨5000, 1, 0, .Oneshot, some ⟨3, 0⟩, 1, 0⟩).source = none
      ∧ (TimeEventCallback true sampleClock cbTimeDestroy false
          ⟨5000, 1, 0, .Oneshot, some ⟨3, 0⟩, 1, 0⟩).log.rearmed = false
      ∧ (TimeEventCallback true sampleClock
          cbTimeReenable false
          ⟨5000, 1, 0, .Oneshot, some ⟨3, 0⟩, 1, 0⟩).source
          = some (LibUVSourceTime.resetEvent true sampleClock
              ⟨5000, 1, 0, .Enabled, none, 1, 1⟩)
      ∧ (TimeEventCallback true sampleClock
          cbTimeReenable false
          ⟨5000, 1, 0, .Oneshot, some ⟨3, 0⟩, 1, 0⟩).log.rearmed = true
      ∧ (LibUVSourceTime.resetEvent true sampleClock
          ⟨5000, 1, 0, .Enabled, none, 1, 1⟩).handle_
          = some ⟨timerTimeout 5000 2000, 0⟩
      ∧ (LibUVSourceTime.resetEvent true sampleClock
          ⟨5000, 1, 0, .Enabled, none, 1, 1⟩).inits_ = 2
      ∧ (TimeEventCallback true sampleClock cbTimeKeep false
          ⟨5000, 1, 0, .Oneshot, some ⟨3, 0⟩, 1, 0⟩).source
          = some ⟨5000, 1, 0, .Disabled, none, 1, 1⟩
      ∧ (TimeEventCallback true sampleClock cbTimeKeep false
          ⟨5000, 1, 0, .Oneshot, some ⟨3, 0⟩, 1, 0⟩).log.rearmed = false) :=
  ⟨by decide, by decide, by decide, by decide, by decide, by decide,
    time_dispatch_spec true sampleClock
      cbTimeKeep cbTimeDestroy
      cbTimeReenable cbTimeKeep
      ⟨5000, 1, 0, .Enabled, some ⟨3, 0⟩, 1, 0⟩
      ⟨5000, 1, 0, .Oneshot, some ⟨3, 0⟩, 1, 0⟩
      ⟨5000, 1, 0, .Oneshot, some ⟨3, 0⟩, 1, 0⟩
      ⟨5000, 1, 0, .Oneshot, some ⟨3, 0⟩, 1, 0⟩
      ⟨5000, 1, 0, .Oneshot, some ⟨3, 0⟩, 1, 0⟩
      ⟨5000, 1, 0, .Enabled, none, 1, 1⟩
      ⟨5000, 1, 0, .Disabled, none, 1, 1⟩
      (by decide) (by decide) (by decide) (by decide) (by decide) (by decide)⟩

/-- C10: setAccuracy(v) changes only the stored accuracy field — the
native handle and every other field are untouched and no
teardown/rebuild happens (the close and registration counters are
unchanged); reconciliation commutes with setAccuracy because the
accuracy value is never consulted when the backend timeout is computed;
by contrast setTime and setClock always reconcile: on an enabled source
with a live loop they always register a fresh handle, even if the new
value equals the old one. -/
theorem set_accuracy_frame (s s2 : LibUVSourceTime) (v t c : Nat)
    (la : Bool) (now : Nat → Nat) (hs2 : s2.state_ ≠ .Disabled) :
    (s.setAccuracy v).accuracy_ = v
    ∧ (s.setAccuracy v).handle_ = s.handle_
    ∧ (s.setAccuracy v).time_ = s.time_
    ∧ (s.setAccuracy v).clock_ = s.clock_
    ∧ (s.setAccuracy v).state_ = s.state_
    ∧ (s.setAccuracy v).inits_ = s.inits_
    ∧ (s.setAccuracy v).closes_ = s.closes_
    ∧ LibUVSourceTime.resetEvent la now (s.setAccuracy v)
        = (LibUVSourceTime.resetEvent la now s).setAccuracy v
    ∧ (LibUVSourceTime.setTime true now s2 t).inits_ = s2.inits_ + 1
    ∧ (LibUVSourceTime.setTime true now s2 t).handle_
        = some ⟨timerTimeout t (now s2.clock_), 0⟩
    ∧ (LibUVSourceTime.setClock true now s2 c).inits_ = s2.inits_ + 1
    ∧ (LibUVSourceTime.setClock true now s2 c).handle_
        = some ⟨timerTimeout s2.time_ (now c), 0⟩ := by
  refine ⟨rfl, rfl, rfl, rfl, rfl, rfl, rfl, ?_, ?_, ?_, ?_, ?_⟩
  · cases hh : s.handle_ <;> cases hst : s.state_ <;> cases la <;>
      simp [LibUVSourceTime.setAccuracy, LibUVSourceTime.resetEvent,
        LibUVSourceTime.cleanup, LibUVSourceTime.init, hh, hst]
  all_goals
    cases hh : s2.handle_ <;>
      simp [LibUVSourceTime.setTime, LibUVSourceTime.setClock,
        LibUVSourceTime.resetEvent, LibUVSourceTime.cleanup,
        LibUVSourceTime.init, hh, hs2]

/-- Witness for set_accuracy_frame: an Enabled timer source with a live
handle, accuracy set to 42, deadline moved to 7000, clock moved to 2. -/
theorem set_accuracy_frame_witness :
    (⟨5000, 1, 0, .Enabled, some ⟨3, 0⟩, 1, 0⟩ : LibUVSourceTime).state_
        ≠ .Disabled
    ∧ ((LibUVSourceTime.setAccuracy ⟨5000, 1, 0, .Enabled, some ⟨3, 0⟩, 1, 0⟩
          42).accuracy_ = 42
      ∧ (LibUVSourceTime.setAccuracy ⟨5000, 1, 0, .Enabled, some ⟨3, 0⟩, 1, 0⟩
          42).handle_ = some ⟨3, 0⟩
      ∧ (LibUVSourceTime.setAccuracy ⟨5000, 1, 0, .Enabled, some ⟨3, 0⟩, 1, 0⟩
          42).time_ = 5000
      ∧ (LibUVSourceTime.setAccuracy ⟨5000, 1, 0, .Enabled, some ⟨3, 0⟩, 1, 0⟩
          42).clock_ = 1
      ∧ (LibUVSourceTime.setAccuracy ⟨5000, 1, 0, .Enabled, some ⟨3, 0⟩, 1, 0⟩
          42).state_ = .Enabled
      ∧ (LibUVSourceTime.setAccuracy ⟨5000, 1, 0, .Enabled, some ⟨3, 0⟩, 1, 0⟩
          42).inits_ = 1
      ∧ (LibUVSourceTime.setAccuracy ⟨5000, 1, 0, .Enabled, some ⟨3, 0⟩, 1, 0⟩
          42).closes_ = 0
      ∧ LibUVSourceTime.resetEvent true sampleClock
          (LibUVSourceTime.setAccuracy ⟨5000, 1, 0, .Enabled, some ⟨3, 0⟩, 1, 0⟩ 42)
          = LibUVSourceTime.setAccuracy
              (LibUVSourceTime.resetEvent true sampleClock
                ⟨5000, 1, 0, .Enabled, some ⟨3, 0⟩, 1, 0⟩) 42
      ∧ (LibUVSourceTime.setTime true sampleClock
          ⟨5000, 1, 0, .Enabled, some ⟨3, 0⟩, 1, 0⟩ 7000).inits_ = 2
      ∧ (LibUVSourceTime.setTime true sampleClock
          ⟨5000, 1, 0, .Enabled, some ⟨3, 0⟩, 1, 0⟩ 7000).handle_
          = some ⟨timerTimeout 7000 2000, 0⟩
      ∧ (LibUVSourceTime.setClock true sampleClock
          ⟨5000, 1, 0, .Enabled, some ⟨3, 0⟩, 1, 0⟩ 2).inits_ = 2
      ∧ (LibUVSourceTime.setClock true sampleClock
          ⟨5000, 1, 0, .Enabled, some ⟨3, 0⟩, 1, 0⟩ 2).handle_
          = some ⟨timerTimeout 5000 2000, 0⟩) :=
  ⟨by decide,
    set_accuracy_frame ⟨5000, 1, 0, .Enabled, some ⟨3, 0⟩, 1, 0⟩
      ⟨5000, 1, 0, .Enabled, some ⟨3, 0⟩, 1, 0⟩ 42 7000 2 true sampleClock
      (by decide)⟩

/-- C9: a callback that raises out of an IO, timer, or exit dispatch is
not recovered: the IO dispatch ends in the fatal-logged abort branch,
the timer dispatch ends in the abort branch without re-arming the
timer, and the exit walk ends in its abort branch immediately, visiting
no further entry; no dispatch propagates the exception to the
caller. -/
theorem callback_throw_aborts (loopAlive : Bool) (s : LibUVSourceIo)
    (status : Int) (events : Nat) (cbIo : LibUVSourceIo → LibUVSourceIo)
    (now : Nat → Nat) (cbT : LibUVSourceTime → Option LibUVSourceTime)
    (sT : LibUVSourceTime) (store : ExitStore) (id : Nat) (rest : List Nat)
    (ev : LibUVSourceExit) (hlook : lookupSrc store id = some ev)
    (hen : ev.state_ ≠ .Disabled) (hthrow : ev.cbThrows = true) :
    (IOEventCallback loopAlive s status events cbIo true).outcome
        = .fatalLogged
    ∧ (TimeEventCallback loopAlive now cbT true sT).outcome = .abortCalled
    ∧ (TimeEventCallback loopAlive now cbT true sT).log.rearmed = false
    ∧ (execExitWalk store (id :: rest)).aborted = true
    ∧ (execExitWalk store (id :: rest)).trace.length = 1 := by
  refine ⟨?_, ?_, ?_, ?_, ?_⟩
  · simp [IOEventCallback]
  · simp [TimeEventCallback]
  · simp [TimeEventCallback]
  all_goals simp [execExitWalk, hlook, hen, hthrow]

/-- Witness for callback_throw_aborts: throwing callbacks on a concrete
IO source, timer source, and a OneShot exit source followed by two more
registered entries. -/
theorem callback_throw_aborts_witness :
    lookupSrc [(0, ⟨.Oneshot, [], true⟩), (1, ⟨.Oneshot, [], false⟩)] 0
        = some ⟨.Oneshot, [], true⟩
    ∧ (⟨.Oneshot, [], true⟩ : LibUVSourceExit).state_ ≠ .Disabled
    ∧ (⟨.Oneshot, [], true⟩ : LibUVSourceExit).cbThrows = true
    ∧ ((IOEventCallback true
          ⟨3, ⟨true, false, false, false⟩, emptyFlags, .Enabled, some ⟨3, 1⟩, 1, 0⟩
          0 1 id true).outcome = .fatalLogged
      ∧ (TimeEventCallback true sampleClock cbTimeKeep true
          ⟨5000, 1, 0, .Oneshot, some ⟨3, 0⟩, 1, 0⟩).outcome = .abortCalled
      ∧ (TimeEventCallback true sampleClock cbTimeKeep true
          ⟨5000, 1, 0, .Oneshot, some ⟨3, 0⟩, 1, 0⟩).log.rearmed = false
      ∧ (execExitWalk [(0, ⟨.Oneshot, [], true⟩), (1, ⟨.Oneshot, [], false⟩)]
          (0 :: [1, 2])).aborted = true
      ∧ (execExitWalk [(0, ⟨.Oneshot, [], true⟩), (1, ⟨.Oneshot, [], false⟩)]
          (0 :: [1, 2])).trace.length = 1) :=
  ⟨by decide, by decide, by decide,
    callback_throw_aborts true
      ⟨3, ⟨true, false, false, false⟩, emptyFlags, .Enabled, some ⟨3, 1⟩, 1, 0⟩
      0 1 id sampleClock cbTimeKeep
      ⟨5000, 1, 0, .Oneshot, some ⟨3, 0⟩, 1, 0⟩
      [(0, ⟨.Oneshot, [], true⟩), (1, ⟨.Oneshot, [], false⟩)] 0 [1, 2]
      ⟨.Oneshot, [], true⟩ (by decide) (by decide) (by decide)⟩

/-- Helper: with a live loop, resetEvent establishes the IO handle
invariant, bumps the close counter iff a handle was present, bumps the
registration counter iff the state is not Disabled, and preserves the
state and configuration fields. -/
theorem io_resetEvent_spec (s : LibUVSourceIo) :
    ioHandleInv (s.resetEvent true)
    ∧ (s.resetEvent true).closes_
        = (if s.handle_.isSome then s.closes_ + 1 else s.closes_)
    ∧ (s.resetEvent true).inits_
        = (if s.state_ = .Disabled then s.inits_ else s.inits_ + 1)
    ∧ (s.resetEvent true).state_ = s.state_
    ∧ (s.resetEvent true).fd_ = s.fd_
    ∧ (s.resetEvent true).flags_ = s.flags_ := by
  cases hh : s.handle_ <;> cases hst : s.state_ <;>
    simp [ioHandleInv, LibUVSourceIo.resetEvent, LibUVSourceIo.cleanup,
      LibUVSourceIo.init, hh, hst]

/-- Helper: every single IO mutator call preserves the handle
invariant. -/
theorem ioHandleInv_mut (s : LibUVSourceIo) (m : IoMutation)
    (h : ioHandleInv s) : ioHandleInv (applyIoMut true s m) := by
  cases m with
  | mSetEnabled b =>
      by_cases hc : s.state_
          = (if b then LibUVSourceEnableState.Enabled else .Disabled)
      · simp only [applyIoMut, LibUVSourceIo.setEnabled,
          LibUVSourceIo.setState, if_pos hc]
        exact h
      · simp only [applyIoMut, LibUVSourceIo.setEnabled,
          LibUVSourceIo.setState, if_neg hc]
        exact (io_resetEvent_spec _).1
  | mSetOneShot =>
      by_cases hc : s.state_ = LibUVSourceEnableState.Oneshot
      · simp only [applyIoMut, LibUVSourceIo.setOneShot,
          LibUVSourceIo.setState, if_pos hc]
        exact h
      · simp only [applyIoMut, LibUVSourceIo.setOneShot,
          LibUVSourceIo.setState, if_neg hc]
        exact (io_resetEvent_spec _).1
  | mSetFd fd =>
      by_cases hc : s.fd_ = fd
      · simp only [applyIoMut, LibUVSourceIo.setFd, if_pos hc]
        exact h
      · simp only [applyIoMut, LibUVSourceIo.setFd, if_neg hc]
        exact (io_resetEvent_spec _).1
  | mSetEvents flags =>
      by_cases hc : s.flags_ = flags
      · simp only [applyIoMut, LibUVSourceIo.setEvents, if_pos hc]
        exact h
      · simp only [applyIoMut, LibUVSourceIo.setEvents, if_neg hc]
        exact (io_resetEvent_spec _).1

/-- Helper: the IO handle invariant is preserved by arbitrary mutator
sequences. -/
theorem ioHandleInv_muts (ms : List IoMutation) (s : LibUVSourceIo)
    (h : ioHandleInv s) : ioHandleInv (ms.foldl (applyIoMut true) s) := by
  induction ms generalizing s with
  | nil => exact h
  | cons m ms ih => exact ih _ (ioHandleInv_mut s m h)

/-- Helper: an effective IO mutator call is exactly a field update
followed by resetEvent. -/
theorem applyIoMut_effective (s : LibUVSourceIo) (m : IoMutation)
    (he : ioTriggersRebuild s m = true) :
    ∃ s1 : LibUVSourceIo, applyIoMut true s m = s1.resetEvent true
      ∧ s1.handle_ = s.handle_ ∧ s1.closes_ = s.closes_
      ∧ s1.inits_ = s.inits_ := by
  cases m with
  | mSetEnabled b =>
      have hne : ¬ s.state_
          = (if b then LibUVSourceEnableState.Enabled else .Disabled) := by
        simpa [ioTriggersRebuild] using he
      exact ⟨{ s with state_ := if b then .Enabled else .Disabled },
        by simp [applyIoMut, LibUVSourceIo.setEnabled,
          LibUVSourceIo.setState, hne], rfl, rfl, rfl⟩
  | mSetOneShot =>
      have hne : ¬ s.state_ = LibUVSourceEnableState.Oneshot := by
        simpa [ioTriggersRebuild] using he
      exact ⟨{ s with state_ := .Oneshot },
        by simp [applyIoMut, LibUVSourceIo.setOneShot,
          LibUVSourceIo.setState, hne], rfl, rfl, rfl⟩
  | mSetFd fd =>
      have hne : ¬ s.fd_ = fd := by simpa [ioTriggersRebuild] using he
      exact ⟨{ s with fd_ := fd },
        by simp [applyIoMut, LibUVSourceIo.setFd, hne], rfl, rfl, rfl⟩
  | mSetEvents flags =>
      have hne : ¬ s.flags_ = flags := by simpa [ioTriggersRebuild] using he
      exact ⟨{ s with flags_ := flags },
        by simp [applyIoMut, LibUVSourceIo.setEvents, hne], rfl, rfl, rfl⟩

/-- Helper: with a live loop, resetEvent establishes the Time handle
invariant and updates the counters as for IO sources, preserving state,
deadline, clock and accuracy. -/
theorem time_resetEvent_spec (now : Nat → Nat) (s : LibUVSourceTime) :
    timeHandleInv now (LibUVSourceTime.resetEvent true now s)
    ∧ (LibUVSourceTime.resetEvent true now s).closes_
        = (if s.handle_.isSome then s.closes_ + 1 else s.closes_)
    ∧ (LibUVSourceTime.resetEvent true now s).inits_
        = (if s.state_ = .Disabled then s.inits_ else s.inits_ + 1)
    ∧ (LibUVSourceTime.resetEvent true now s).state_ = s.state_
    ∧ (LibUVSourceTime.resetEvent true now s).time_ = s.time_
    ∧ (LibUVSourceTime.resetEvent true now s).clock_ = s.clock_ := by
  cases hh : s.handle_ <;> cases hst : s.state_ <;>
    simp [timeHandleInv, LibUVSourceTime.resetEvent, LibUVSourceTime.cleanup,
      LibUVSourceTime.init, hh, hst]

/-- Helper: every single Time mutator call preserves the handle
invariant (setAccuracy because the invariant never mentions accuracy,
the others because resetEvent re-establishes it). -/
theorem timeHandleInv_mut (now : Nat → Nat) (s : LibUVSourceTime)
    (m : TimeMutation) (h : timeHandleInv now s) :
    timeHandleInv now (applyTimeMut true now s m) := by
  cases m with
  | mSetEnabled b =>
      by_cases hc : s.state_
          = (if b then LibUVSourceEnableState.Enabled else .Disabled)
      · simp only [applyTimeMut, LibUVSourceTime.setEnabled,
          LibUVSourceTime.setState, if_pos hc]
        exact h
      · simp only [applyTimeMut, LibUVSourceTime.setEnabled,
          LibUVSourceTime.setState, if_neg hc]
        exact (time_resetEvent_spec now _).1
  | mSetOneShot =>
      by_cases hc : s.state_ = LibUVSourceEnableState.Oneshot
      · simp only [applyTimeMut, LibUVSourceTime.setOneShot,
          LibUVSourceTime.setState, if_pos hc]
        exact h
      · simp only [applyTimeMut, LibUVSourceTime.setOneShot,
          LibUVSourceTime.setState, if_neg hc]
        exact (time_resetEvent_spec now _).1
  | mSetTime t => exact (time_resetEvent_spec now _).1
  | mSetClock c => exact (time_resetEvent_spec now _).1
  | mSetAccuracy a => exact h

/-- Helper: the Time handle invariant is preserved by arbitrary mutator
sequences. -/
theorem timeHandleInv_muts (now : Nat → Nat) (ms : List TimeMutation)
    (s : LibUVSourceTime) (h : timeHandleInv now s) :
    timeHandleInv now (ms.foldl (applyTimeMut true now) s) := by
  induction ms generalizing s with
  | nil => exact h
  | cons m ms ih => exact ih _ (timeHandleInv_mut now s m h)

/-- Helper: an effective Time mutator call is exactly a field update
followed by resetEvent. -/
theorem applyTimeMut_effective (now : Nat → Nat) (s : LibUVSourceTime)
    (m : TimeMutation) (he : timeTriggersRebuild s m = true) :
    ∃ s1 : LibUVSourceTime,
      applyTimeMut true now s m = LibUVSourceTime.resetEvent true now s1
      ∧ s1.handle_ = s.handle_ ∧ s1.closes_ = s.closes_
      ∧ s1.inits_ = s.inits_ := by
  cases m with
  | mSetEnabled b =>
      have hne : ¬ s.state_
          = (if b then LibUVSourceEnableState.Enabled else .Disabled) := by
        simpa [timeTriggersRebuild] using he
      exact ⟨{ s with state_ := if b then .Enabled else .Disabled },
        by simp [applyTimeMut, LibUVSourceTime.setEnabled,
          LibUVSourceTime.setState, hne], rfl, rfl, rfl⟩
  | mSetOneShot =>
      have hne : ¬ s.state_ = LibUVSourceEnableState.Oneshot := by
        simpa [timeTriggersRebuild] using he
      exact ⟨{ s with state_ := .Oneshot },
        by simp [applyTimeMut, LibUVSourceTime.setOneShot,
          LibUVSourceTime.setState, hne], rfl, rfl, rfl⟩
  | mSetTime t =>
      exact ⟨{ s with time_ := t }, rfl, rfl, rfl, rfl⟩
  | mSetClock c =>
      exact ⟨{ s with clock_ := c }, rfl, rfl, rfl, rfl⟩
  | mSetAccuracy a => simp [timeTriggersRebuild] at he

/-- C4: for IO and Time sources driven against a live loop, the handle
invariant (a native handle exists iff the state is not Disabled, and it
reflects the current configuration) holds after any sequence of mutator
calls; moreover every mutator call that takes effect tears down the
current handle if one is present (close counter bumped) and, when the
resulting state is not Disabled, registers a fresh handle reflecting
the current configuration (registration counter bumped). -/
theorem source_handle_invariant (now : Nat → Nat)
    (sIo : LibUVSourceIo) (msIo : List IoMutation)
    (sT : LibUVSourceTime) (msT : List TimeMutation)
    (sIo2 : LibUVSourceIo) (mIo2 : IoMutation)
    (sIo3 : LibUVSourceIo) (mIo3 : IoMutation)
    (sT2 : LibUVSourceTime) (mT2 : TimeMutation)
    (sT3 : LibUVSourceTime) (mT3 : TimeMutation)
    (hInvIo : ioHandleInv sIo) (hInvT : timeHandleInv now sT)
    (he2 : ioTriggersRebuild sIo2 mIo2 = true)
    (hSome2 : sIo2.handle_.isSome = true)
    (he3 : ioTriggersRebuild sIo3 mIo3 = true)
    (hen3 : (applyIoMut true sIo3 mIo3).state_ ≠ .Disabled)
    (heT2 : timeTriggersRebuild sT2 mT2 = true)
    (hSomeT2 : sT2.handle_.isSome = true)
    (heT3 : timeTriggersRebuild sT3 mT3 = true)
    (henT3 : (applyTimeMut true now sT3 mT3).state_ ≠ .Disabled) :
    ioHandleInv (msIo.foldl (applyIoMut true) sIo)
    ∧ timeHandleInv now (msT.foldl (applyTimeMut true now) sT)
    ∧ ioHandleInv (applyIoMut true sIo2 mIo2)
    ∧ (applyIoMut true sIo2 mIo2).closes_ = sIo2.closes_ + 1
    ∧ (applyIoMut true sIo3 mIo3).inits_ = sIo3.inits_ + 1
    ∧ (applyIoMut true sIo3 mIo3).handle_
        = some ⟨(applyIoMut true sIo3 mIo3).fd_,
            IOEventFlagsToLibUVFlags (applyIoMut true sIo3 mIo3).flags_⟩
    ∧ timeHandleInv now (applyTimeMut true now sT2 mT2)
    ∧ (applyTimeMut true now sT2 mT2).closes_ = sT2.closes_ + 1
    ∧ (applyTimeMut true now sT3 mT3).inits_ = sT3.inits_ + 1
    ∧ (applyTimeMut true now sT3 mT3).handle_
        = some ⟨timerTimeout (applyTimeMut true now sT3 mT3).time_
            (now (applyTimeMut true now sT3 mT3).clock_), 0⟩ := by
  obtain ⟨u2, hu2, hu2h, hu2c, hu2i⟩ := applyIoMut_effective sIo2 mIo2 he2
  obtain ⟨u3, hu3, hu3h, hu3c, hu3i⟩ := applyIoMut_effective sIo3 mIo3 he3
  obtain ⟨w2, hw2, hw2h, hw2c, hw2i⟩ := applyTimeMut_effective now sT2 mT2 heT2
  obtain ⟨w3, hw3, hw3h, hw3c, hw3i⟩ := applyTimeMut_effective now sT3 mT3 heT3
  have hu3st : u3.state_ ≠ .Disabled := by
    rw [hu3, (io_resetEvent_spec u3).2.2.2.1] at hen3
    exact hen3
  have hw3st : w3.state_ ≠ .Disabled := by
    rw [hw3, (time_resetEvent_spec now w3).2.2.2.1] at henT3
    exact henT3
  refine ⟨ioHandleInv_muts msIo sIo hInvIo,
    timeHandleInv_muts now msT sT hInvT, ?_, ?_, ?_, ?_, ?_, ?_, ?_, ?_⟩
  · rw [hu2]
    exact (io_resetEvent_spec u2).1
  · rw [hu2, (io_resetEvent_spec u2).2.1, hu2h, hu2c, if_pos hSome2]
  · rw [hu3, (io_resetEvent_spec u3).2.2.1, hu3i, if_neg hu3st]
  · have hinv := (io_resetEvent_spec u3).1
    rw [ioHandleInv] at hinv
    rw [hu3, hinv, if_neg]
    rw [(io_resetEvent_spec u3).2.2.2.1]
    exact hu3st
  · rw [hw2]
    exact (time_resetEvent_spec now w2).1
  · rw [hw2, (time_resetEvent_spec now w2).2.1, hw2h, hw2c, if_pos hSomeT2]
  · rw [hw3, (time_resetEvent_spec now w3).2.2.1, hw3i, if_neg hw3st]
  · have hinv := (time_resetEvent_spec now w3).1
    rw [timeHandleInv] at hinv
    rw [hw3, hinv, if_neg]
    rw [(time_resetEvent_spec now w3).2.2.2.1]
    exact hw3st

/-- Witness for source_handle_invariant: an Enabled IO source on fd 3
watching In, run through setFd / setEnabled(false) / setOneShot, then
mutated by setEvents and setFd; a OneShot timer with deadline 5000 μs
at clock reading 2000 μs, run through setTime / setAccuracy /
setEnabled(false), then mutated by setClock and setTime. -/
theorem source_handle_invariant_witness :
    ioHandleInv ⟨3, ⟨true, false, false, false⟩, emptyFlags, .Enabled,
        some ⟨3, 1⟩, 1, 0⟩
    ∧ timeHandleInv sampleClock ⟨5000, 1, 0, .Oneshot, some ⟨3, 0⟩, 1, 0⟩
    ∧ ioTriggersRebuild
        ⟨3, ⟨true, false, false, false⟩, emptyFlags, .Enabled, some ⟨3, 1⟩, 1, 0⟩
        (.mSetEvents ⟨false, true, false, false⟩) = true
    ∧ (⟨3, ⟨true, false, false, false⟩, emptyFlags, .Enabled, some ⟨3, 1⟩, 1, 0⟩
        : LibUVSourceIo).handle_.isSome = true
    ∧ ioTriggersRebuild
        ⟨3, ⟨true, false, false, false⟩, emptyFlags, .Enabled, some ⟨3, 1⟩, 1, 0⟩
        (.mSetFd 4) = true
    ∧ (applyIoMut true
        ⟨3, ⟨true, false, false, false⟩, emptyFlags, .Enabled, some ⟨3, 1⟩, 1, 0⟩
        (.mSetFd 4)).state_ ≠ .Disabled
    ∧ timeTriggersRebuild ⟨5000, 1, 0, .Oneshot, some ⟨3, 0⟩, 1, 0⟩
        (.mSetClock 2) = true
    ∧ (⟨5000, 1, 0, .Oneshot, some ⟨3, 0⟩, 1, 0⟩
        : LibUVSourceTime).handle_.isSome = true
    ∧ timeTriggersRebuild ⟨5000, 1, 0, .Oneshot, some ⟨3, 0⟩, 1, 0⟩
        (.mSetTime 7000) = true
    ∧ (applyTimeMut true sampleClock
        ⟨5000, 1, 0, .Oneshot, some ⟨3, 0⟩, 1, 0⟩ (.mSetTime 7000)).state_
        ≠ .Disabled
    ∧ (ioHandleInv (List.foldl (applyIoMut true)
          ⟨3, ⟨true, false, false, false⟩, emptyFlags, .Enabled, some ⟨3, 1⟩, 1, 0⟩
          [.mSetFd 4, .mSetEnabled false, .mSetOneShot])
      ∧ timeHandleInv sampleClock (List.foldl
          (applyTimeMut true sampleClock)
          ⟨5000, 1, 0, .Oneshot, some ⟨3, 0⟩, 1, 0⟩
          [.mSetTime 7000, .mSetAccuracy 9, .mSetEnabled false])
      ∧ ioHandleInv (applyIoMut true
          ⟨3, ⟨true, false, false, false⟩, emptyFlags, .Enabled, some ⟨3, 1⟩, 1, 0⟩
          (.mSetEvents ⟨false, true, false, false⟩))
      ∧ (applyIoMut true
          ⟨3, ⟨true, false, false, false⟩, emptyFlags, .Enabled, some ⟨3, 1⟩, 1, 0⟩
          (.mSetEvents ⟨false, true, false, false⟩)).closes_ = 1
      ∧ (applyIoMut true
          ⟨3, ⟨true, false, false, false⟩, emptyFlags, .Enabled, some ⟨3, 1⟩, 1, 0⟩
          (.mSetFd 4)).inits_ = 2
      ∧ (applyIoMut true
          ⟨3, ⟨true, false, false, false⟩, emptyFlags, .Enabled, some ⟨3, 1⟩, 1, 0⟩
          (.mSetFd 4)).handle_
          = some ⟨(applyIoMut true
              ⟨3, ⟨true, false, false, false⟩, emptyFlags, .Enabled, some ⟨3, 1⟩, 1, 0⟩
              (.mSetFd 4)).fd_,
              IOEventFlagsToLibUVFlags (applyIoMut true
                ⟨3, ⟨true, false, false, false⟩, emptyFlags, .Enabled, some ⟨3, 1⟩, 1, 0⟩
                (.mSetFd 4)).flags_⟩
      ∧ timeHandleInv sampleClock (applyTimeMut true sampleClock
          ⟨5000, 1, 0, .Oneshot, some ⟨3, 0⟩, 1, 0⟩ (.mSetClock 2))
      ∧ (applyTimeMut true sampleClock
          ⟨5000, 1, 0, .Oneshot, some ⟨3, 0⟩, 1, 0⟩ (.mSetClock 2)).closes_ = 1
      ∧ (applyTimeMut true sampleClock
          ⟨5000, 1, 0, .Oneshot, some ⟨3, 0⟩, 1, 0⟩ (.mSetTime 7000)).inits_ = 2
      ∧ (applyTimeMut true sampleClock
          ⟨5000, 1, 0, .Oneshot, some ⟨3, 0⟩, 1, 0⟩ (.mSetTime 7000)).handle_
          = some ⟨timerTimeout (applyTimeMut true sampleClock
                ⟨5000, 1, 0, .Oneshot, some ⟨3, 0⟩, 1, 0⟩ (.mSetTime 7000)).time_
              (sampleClock (applyTimeMut true sampleClock
                ⟨5000, 1, 0, .Oneshot, some ⟨3, 0⟩, 1, 0⟩ (.mSetTime 7000)).clock_),
              0⟩) :=
  ⟨by decide, by decide, by decide, by decide, by decide, by decide, by decide,
    by decide, by decide, by decide,
    source_handle_invariant sampleClock
      ⟨3, ⟨true, false, false, false⟩, emptyFlags, .Enabled, some ⟨3, 1⟩, 1, 0⟩
      [.mSetFd 4, .mSetEnabled false, .mSetOneShot]
      ⟨5000, 1, 0, .Oneshot, some ⟨3, 0⟩, 1, 0⟩
      [.mSetTime 7000, .mSetAccuracy 9, .mSetEnabled false]
      ⟨3, ⟨true, false, false, false⟩, emptyFlags, .Enabled, some ⟨3, 1⟩, 1, 0⟩
      (.mSetEvents ⟨false, true, false, false⟩)
      ⟨3, ⟨true, false, false, false⟩, emptyFlags, .Enabled, some ⟨3, 1⟩, 1, 0⟩
      (.mSetFd 4)
      ⟨5000, 1, 0, .Oneshot, some ⟨3, 0⟩, 1, 0⟩ (.mSetClock 2)
      ⟨5000, 1, 0, .Oneshot, some ⟨3, 0⟩, 1, 0⟩ (.mSetTime 7000)
      (by decide) (by decide) (by decide) (by decide) (by decide) (by decide)
      (by decide) (by decide) (by decide) (by decide)⟩

/-- Helper: resolving after setStateIn — the target entry is seen with
the new state, every other entry unchanged. -/
theorem lookupSrc_setStateIn (store : ExitStore) (id : Nat)
    (st : LibUVSourceEnableState) (j : Nat) :
    lookupSrc (setStateIn store id st) j
      = (lookupSrc store j).map
          (fun ev => if j = id then { ev with state_ := st } else ev) := by
  induction store with
  | nil => rfl
  | cons p rest ih =>
    obtain ⟨k, v⟩ := p
    by_cases hj : k = j
    · subst hj
      by_cases hk : k = id <;> simp [setStateIn, lookupSrc, hk]
    · simp only [setStateIn, List.map_cons] at *
      simp [lookupSrc, hj, ih]

/-- Helper: resolving after destroyIn — the destroyed token no longer
resolves, every other token resolves as before. -/
theorem lookupSrc_destroyIn (store : ExitStore) (id j : Nat) :
    lookupSrc (destroyIn store id) j
      = if j = id then none else lookupSrc store j := by
  induction store with
  | nil => simp [destroyIn, lookupSrc]
  | cons p rest ih =>
    obtain ⟨k, v⟩ := p
    by_cases hk : k = id
    · subst hk
      have hdrop : destroyIn ((k, v) :: rest) k = destroyIn rest k := by
        simp [destroyIn]
      rw [hdrop, ih]
      by_cases hj : j = k
      · simp [hj]
      · have hkj : ¬ k = j := fun hh => hj hh.symm
        simp [hj, lookupSrc, hkj]
    · have hkeep : destroyIn ((k, v) :: rest) id = (k, v) :: destroyIn rest id := by
        simp [destroyIn, hk]
      rw [hkeep]
      by_cases hj : k = j
      · subst hj
        have hjid : ¬ k = id := hk
        simp [lookupSrc, hjid]
      · simp [lookupSrc, hj, ih]

/-- Helper: a destroyed token stays unresolved across any callback
effect. -/
theorem lookupSrc_none_applyExitEffect (store : ExitStore) (e : ExitEffect)
    (j : Nat) (h : lookupSrc store j = none) :
    lookupSrc (applyExitEffect store e) j = none := by
  cases e with
  | destroy id =>
      rw [applyExitEffect, lookupSrc_destroyIn]
      by_cases hj : j = id <;> simp [hj, h]
  | setEnabledFx id b => rw [applyExitEffect, lookupSrc_setStateIn, h]; rfl
  | setOneShotFx id => rw [applyExitEffect, lookupSrc_setStateIn, h]; rfl

/-- Helper: a destroyed token stays unresolved across a whole callback
body. -/
theorem lookupSrc_none_foldl (effects : List ExitEffect) (store : ExitStore)
    (j : Nat) (h : lookupSrc store j = none) :
    lookupSrc (effects.foldl applyExitEffect store) j = none := by
  induction effects generalizing store with
  | nil => exact h
  | cons e es ih => exact ih _ (lookupSrc_none_applyExitEffect store e j h)

/-- Helper: setStateIn does not change any callback body, so a
throw-free population stays throw-free. -/
theorem exitStoreNoThrow_setStateIn (store : ExitStore) (id : Nat)
    (st : LibUVSourceEnableState) (h : exitStoreNoThrow store = true) :
    exitStoreNoThrow (setStateIn store id st) = true := by
  rw [exitStoreNoThrow, List.all_eq_true] at h ⊢
  intro p hp
  rw [setStateIn, List.mem_map] at hp
  obtain ⟨q, hq, rfl⟩ := hp
  by_cases hk : q.1 = id <;> simp [hk] <;> simpa using h q hq

/-- Helper: destroying an entry keeps a throw-free population
throw-free. -/
theorem exitStoreNoThrow_destroyIn (store : ExitStore) (id : Nat)
    (h : exitStoreNoThrow store = true) :
    exitStoreNoThrow (destroyIn store id) = true := by
  rw [exitStoreNoThrow, List.all_eq_true] at h ⊢
  intro p hp
  rw [destroyIn, List.mem_filter] at hp
  exact h p hp.1

/-- Helper: any single callback effect keeps a throw-free population
throw-free. -/
theorem exitStoreNoThrow_applyExitEffect (store : ExitStore) (e : ExitEffect)
    (h : exitStoreNoThrow store = true) :
    exitStoreNoThrow (applyExitEffect store e) = true := by
  cases e with
  | destroy id => exact exitStoreNoThrow_destroyIn store id h
  | setEnabledFx id b => exact exitStoreNoThrow_setStateIn store id _ h
  | setOneShotFx id => exact exitStoreNoThrow_setStateIn store id _ h

/-- Helper: a whole callback body keeps a throw-free population
throw-free. -/
theorem exitStoreNoThrow_foldl (effects : List ExitEffect)
    (store : ExitStore) (h : exitStoreNoThrow store = true) :
    exitStoreNoThrow (effects.foldl applyExitEffect store) = true := by
  induction effects generalizing store with
  | nil => exact h
  | cons e es ih => exact ih _ (exitStoreNoThrow_applyExitEffect store e h)

/-- Helper: in a throw-free population, every resolved source has a
non-throwing callback. -/
theorem lookupSrc_some_noThrow (store : ExitStore) (j : Nat)
    (ev : LibUVSourceExit) (h : exitStoreNoThrow store = true)
    (hl : lookupSrc store j = some ev) : ev.cbThrows = false := by
  induction store with
  | nil => simp [lookupSrc] at hl
  | cons p rest ih =>
    obtain ⟨k, v⟩ := p
    rw [exitStoreNoThrow, List.all_cons, Bool.and_eq_true] at h
    rw [lookupSrc] at hl
    by_cases hk : k = j
    · rw [if_pos hk] at hl
      obtain rfl := Option.some.inj hl
      simpa using h.1
    · rw [if_neg hk] at hl
      exact ih h.2 hl

/-- Helper: one step of the walk over an entry whose weak reference no
longer resolves — no invocation, entry erased. -/
theorem execExitWalk_cons_none (store : ExitStore) (id : Nat)
    (rest : List Nat) (hl : lookupSrc store id = none) :
    execExitWalk store (id :: rest)
      = { execExitWalk store rest with
          trace := ⟨id, none, false, none, true⟩
            :: (execExitWalk store rest).trace } := by
  simp [execExitWalk, hl]

/-- Helper: one step of the walk over a resolved but Disabled entry —
no invocation, entry kept. -/
theorem execExitWalk_cons_disabled (store : ExitStore) (id : Nat)
    (rest : List Nat) (ev : LibUVSourceExit)
    (hl : lookupSrc store id = some ev) (hst : ev.state_ = .Disabled) :
    execExitWalk store (id :: rest)
      = { execExitWalk store rest with
          remaining := id :: (execExitWalk store rest).remaining
          trace := ⟨id, some ev.state_, false, none, false⟩
            :: (execExitWalk store rest).trace } := by
  simp [execExitWalk, hl, hst]

/-- Helper: one step of the walk over a resolved, enabled entry with a
non-throwing callback — invocation, then pruning iff the weak reference
stopped resolving. -/
theorem execExitWalk_cons_invoke (store : ExitStore) (id : Nat)
    (rest : List Nat) (ev : LibUVSourceExit)
    (hl : lookupSrc store id = some ev) (hen : ¬ ev.state_ = .Disabled)
    (hnt : ev.cbThrows = false) :
    execExitWalk store (id :: rest)
      = { store := (execExitWalk (walkStore2 store id ev) rest).store
          remaining :=
            if (lookupSrc (walkStore2 store id ev) id).isNone
            then (execExitWalk (walkStore2 store id ev) rest).remaining
            else id :: (execExitWalk (walkStore2 store id ev) rest).remaining
          trace := ⟨id, some ev.state_, true, walkStCb store id ev,
              (lookupSrc (walkStore2 store id ev) id).isNone⟩
            :: (execExitWalk (walkStore2 store id ev) rest).trace
          aborted := (execExitWalk (walkStore2 store id ev) rest).aborted } := by
  simp [execExitWalk, hl, hen, hnt]

/-- Helper: a token unresolved before an invoked visit is still
unresolved in the population the next visit sees. -/
theorem lookupSrc_none_walkStore2 (store : ExitStore) (id : Nat)
    (ev : LibUVSourceExit) (j : Nat) (h : lookupSrc store j = none) :
    lookupSrc (walkStore2 store id ev) j = none := by
  unfold walkStore2 walkStore1
  apply lookupSrc_none_foldl
  split
  · rw [lookupSrc_setStateIn, h]
    rfl
  · exact h

/-- Helper: an invoked visit keeps a throw-free population
throw-free. -/
theorem exitStoreNoThrow_walkStore2 (store : ExitStore) (id : Nat)
    (ev : LibUVSourceExit) (h : exitStoreNoThrow store = true) :
    exitStoreNoThrow (walkStore2 store id ev) = true := by
  unfold walkStore2 walkStore1
  apply exitStoreNoThrow_foldl
  split
  · exact exitStoreNoThrow_setStateIn store id _ h
  · exact h

/-- Helper: a OneShot entry is Disabled by the time its exit callback
runs. -/
theorem walkStCb_oneshot (store : ExitStore) (id : Nat)
    (ev : LibUVSourceExit) (hl : lookupSrc store id = some ev)
    (hst : ev.state_ = .Oneshot) :
    walkStCb store id ev = some .Disabled := by
  unfold walkStCb walkStore1
  rw [if_pos hst, lookupSrc_setStateIn, hl]
  simp

/-- Helper: an Enabled entry is still Enabled when its exit callback
runs. -/
theorem walkStCb_enabled (store : ExitStore) (id : Nat)
    (ev : LibUVSourceExit) (hl : lookupSrc store id = some ev)
    (hst : ev.state_ = .Enabled) :
    walkStCb store id ev = some .Enabled := by
  unfold walkStCb walkStore1
  rw [if_neg (by simp [hst]), hl]
  simp [hst]

/-- C1: when no exit callback throws, the walk after the blocking wait
in exec terminates normally and its visit trace shows: every entry of
the exit list is visited exactly once, in registration order; the
callback of a visit is invoked iff the weak reference resolved there to
a non-Disabled source; a OneShot source is already Disabled — and an
Enabled source still Enabled — at the moment its callback runs; the
surviving exit list consists, in order, of exactly the entries whose
weak reference still resolved right after their own visit (every other
entry is erased); and an entry whose source was destroyed before the
walk began is never invoked. -/
theorem exec_exit_walk_spec (store : ExitStore) (ids : List Nat)
    (h : exitStoreNoThrow store = true) :
    (execExitWalk store ids).aborted = false
    ∧ (execExitWalk store ids).trace.map ExitVisit.id = ids
    ∧ (execExitWalk store ids).trace.all visitConsistent = true
    ∧ (execExitWalk store ids).remaining
        = ((execExitWalk store ids).trace.filter visitKept).map ExitVisit.id
    ∧ (execExitWalk store ids).trace.all
        (invokedOnlyIfInitiallyLive store) = true := by
  induction ids generalizing store with
  | nil => simp [execExitWalk]
  | cons id rest ih =>
    rcases hl : lookupSrc store id with _ | ev
    · obtain ⟨IH1, IH2, IH3, IH4, IH5⟩ := ih store h
      rw [execExitWalk_cons_none store id rest hl]
      refine ⟨IH1, ?_, ?_, ?_, ?_⟩
      · simp [IH2]
      · simp [List.all_cons, IH3, visitConsistent]
      · simp [visitKept, IH4]
      · simp [List.all_cons, IH5, invokedOnlyIfInitiallyLive]
    · have hnt : ev.cbThrows = false := lookupSrc_some_noThrow store id ev h hl
      rcases hst : ev.state_ with _ | _ | _
      · -- Disabled entry: valid but skipped, kept in the list
        obtain ⟨IH1, IH2, IH3, IH4, IH5⟩ := ih store h
        rw [execExitWalk_cons_disabled store id rest ev hl hst]
        refine ⟨IH1, ?_, ?_, ?_, ?_⟩
        · simp [IH2]
        · simp [List.all_cons, IH3, visitConsistent, hst]
        · simp [visitKept, IH4]
        · simp [List.all_cons, IH5, invokedOnlyIfInitiallyLive]
      · -- Oneshot entry: disabled first, then invoked
        have hen : ¬ ev.state_ = LibUVSourceEnableState.Disabled := by
          simp [hst]
        have h2 := exitStoreNoThrow_walkStore2 store id ev h
        obtain ⟨IH1, IH2, IH3, IH4, IH5⟩ := ih _ h2
        have hcb := walkStCb_oneshot store id ev hl hst
        rw [execExitWalk_cons_invoke store id rest ev hl hen hnt]
        refine ⟨IH1, ?_, ?_, ?_, ?_⟩
        · simp [IH2]
        · simp [List.all_cons, IH3, visitConsistent, hst, hcb]
        · rcases hpr : lookupSrc (walkStore2 store id ev) id with _ | z <;>
            simp [hpr, visitKept, IH4]
        · simp only [List.all_cons, Bool.and_eq_true]
          constructor
          · simp [invokedOnlyIfInitiallyLive, hl]
          · rw [List.all_eq_true] at IH5 ⊢
            intro w hw
            rcases hlw : lookupSrc store w.id with _ | x
            · have hw2 := lookupSrc_none_walkStore2 store id ev w.id hlw
              have hthis := IH5 w hw
              simp only [invokedOnlyIfInitiallyLive, hw2] at hthis
              simp only [invokedOnlyIfInitiallyLive, hlw]
              simpa using hthis
            · simp [invokedOnlyIfInitiallyLive, hlw]
      · -- Enabled entry: invoked with state unchanged
        have hen : ¬ ev.state_ = LibUVSourceEnableState.Disabled := by
          simp [hst]
        have h2 := exitStoreNoThrow_walkStore2 store id ev h
        obtain ⟨IH1, IH2, IH3, IH4, IH5⟩ := ih _ h2
        have hcb := walkStCb_enabled store id ev hl hst
        rw [execExitWalk_cons_invoke store id rest ev hl hen hnt]
        refine ⟨IH1, ?_, ?_, ?_, ?_⟩
        · simp [IH2]
        · simp [List.all_cons, IH3, visitConsistent, hst, hcb]
        · rcases hpr : lookupSrc (walkStore2 store id ev) id with _ | z <;>
            simp [hpr, visitKept, IH4]
        · simp only [List.all_cons, Bool.and_eq_true]
          constructor
          · simp [invokedOnlyIfInitiallyLive, hl]
          · rw [List.all_eq_true] at IH5 ⊢
            intro w hw
            rcases hlw : lookupSrc store w.id with _ | x
            · have hw2 := lookupSrc_none_walkStore2 store id ev w.id hlw
              have hthis := IH5 w hw
              simp only [invokedOnlyIfInitiallyLive, hw2] at hthis
              simp only [invokedOnlyIfInitiallyLive, hlw]
              simpa using hthis
            · simp [invokedOnlyIfInitiallyLive, hlw]

/-- Witness for exec_exit_walk_spec: a population with a OneShot entry
(token 0), an Enabled entry (token 1) whose callback destroys itself
and token 2, another OneShot entry (token 2, destroyed before its
visit), and a Disabled entry (token 4); the walk list also holds a
token 3 whose source never existed. -/
theorem exec_exit_walk_spec_witness :
    exitStoreNoThrow
        [(0, ⟨.Oneshot, [], false⟩),
         (1, ⟨.Enabled, [.destroy 1, .destroy 2], false⟩),
         (2, ⟨.Oneshot, [], false⟩),
         (4, ⟨.Disabled, [], false⟩)] = true
    ∧ ((execExitWalk
          [(0, ⟨.Oneshot, [], false⟩),
           (1, ⟨.Enabled, [.destroy 1, .destroy 2], false⟩),
           (2, ⟨.Oneshot, [], false⟩),
           (4, ⟨.Disabled, [], false⟩)] [0, 1, 2, 3, 4]).aborted = false
      ∧ (execExitWalk
          [(0, ⟨.Oneshot, [], false⟩),
           (1, ⟨.Enabled, [.destroy 1, .destroy 2], false⟩),
           (2, ⟨.Oneshot, [], false⟩),
           (4, ⟨.Disabled, [], false⟩)] [0, 1, 2, 3, 4]).trace.map
            ExitVisit.id = [0, 1, 2, 3, 4]
      ∧ (execExitWalk
          [(0, ⟨.Oneshot, [], false⟩),
           (1, ⟨.Enabled, [.destroy 1, .destroy 2], false⟩),
           (2, ⟨.Oneshot, [], false⟩),
           (4, ⟨.Disabled, [], false⟩)] [0, 1, 2, 3, 4]).trace.all
            visitConsistent = true
      ∧ (execExitWalk
          [(0, ⟨.Oneshot, [], false⟩),
           (1, ⟨.Enabled, [.destroy 1, .destroy 2], false⟩),
           (2, ⟨.Oneshot, [], false⟩),
           (4, ⟨.Disabled, [], false⟩)] [0, 1, 2, 3, 4]).remaining
          = ((execExitWalk
              [(0, ⟨.Oneshot, [], false⟩),
               (1, ⟨.Enabled, [.destroy 1, .destroy 2], false⟩),
               (2, ⟨.Oneshot, [], false⟩),
               (4, ⟨.Disabled, [], false⟩)] [0, 1, 2, 3, 4]).trace.filter
              visitKept).map ExitVisit.id
      ∧ (execExitWalk
          [(0, ⟨.Oneshot, [], false⟩),
           (1, ⟨.Enabled, [.destroy 1, .destroy 2], false⟩),
           (2, ⟨.Oneshot, [], false⟩),
           (4, ⟨.Disabled, [], false⟩)] [0, 1, 2, 3, 4]).trace.all
            (invokedOnlyIfInitiallyLive
              [(0, ⟨.Oneshot, [], false⟩),
               (1, ⟨.Enabled, [.destroy 1, .destroy 2], false⟩),
               (2, ⟨.Oneshot, [], false⟩),
               (4, ⟨.Disabled, [], false⟩)]) = true) :=
  ⟨by decide,
    exec_exit_walk_spec
      [(0, ⟨.Oneshot, [], false⟩),
       (1, ⟨.Enabled, [.destroy 1, .destroy 2], false⟩),
       (2, ⟨.Oneshot, [], false⟩),
       (4, ⟨.Disabled, [], false⟩)] [0, 1, 2, 3, 4] (by decide)⟩

end FcitxEvent
